import Mathlib

/-!
Verification of the notification/messaging subsystem of the evolution back-end.

The JavaScript source is embedded shallowly:

* strings stay strings (`String`), except phone numbers, which are handled as
  `List Char` so that the character-level filtering of
  `normalizePhoneNumber` can be reasoned about directly;
* the MongoDB collections behind the `Message`, `Contact`, `Recordatorio` and
  `Template` models become explicit lists threaded through each operation;
  `create` runs the schema validation (enum membership, required fields,
  unique index on `messageId`) that Mongoose runs on inserts, while
  `findOneAndUpdate`/`findByIdAndUpdate` follow Mongoose in not validating by
  default (the template controller opts in with `runValidators`);
* external collaborators (the Infobip gateway, nodemailer, the WhatsApp
  Business API wrapper, the `User`/`Cliente` collections consulted by the
  reminder dispatchers, and locale date formatting) are parameters of the
  functions that call them, mirroring the narrow interfaces they are used
  through; opaque diagnostic payloads (`rawResponse`, provider error bodies)
  are dropped as inert;
* `Date` values are abstract instants (`Int`) passed in as a `now` argument.

Each claim-level theorem is stated over these definitions.
-/

namespace Evolution

/-! ## Phone normalization (src/services/whatsapp/messageService.js, normalizePhoneNumber) -/

/-- Characters removed by the JS `replace` with the class of whitespace,
hyphen and parentheses (the regex class `\s` plus `-`, `(`, `)`);
the whitespace characters are the ASCII ones JS matches. -/
def isStrippedChar (c : Char) : Bool :=
  c = ' ' || c = '\t' || c = '\n' || c = '\r' || c = '\x0b' || c = '\x0c' ||
    c = '-' || c = '(' || c = ')'

/-- Middle step of `messageService.normalizePhoneNumber`: if there is no
leading plus sign, turn a leading double zero into a plus, replace a leading
national zero by the Argentine code 54, or prepend 54 unless the digits
already start with 54. -/
def normalizeWithPlus (t : List Char) : List Char :=
  if t.take 1 = ['+'] then t
  else if t.take 2 = ['0', '0'] then '+' :: t.drop 2
  else if t.take 1 = ['0'] then '+' :: '5' :: '4' :: t.drop 1
  else if t.take 2 ≠ ['5', '4'] then '+' :: '5' :: '4' :: t
  else '+' :: t

/-- Final step of `messageService.normalizePhoneNumber`: the gateway wants the
number without the plus sign. -/
def stripLeadingPlus (u : List Char) : List Char :=
  if u.take 1 = ['+'] then u.drop 1 else u

/-- Embedding of `messageService.normalizePhoneNumber`: strip whitespace,
hyphens and parentheses, apply the country-prefix heuristics, drop the
leading plus sign. -/
def normalizePhoneNumber (phoneNumber : List Char) : List Char :=
  stripLeadingPlus (normalizeWithPlus (phoneNumber.filter (fun c => !isStrippedChar c)))

/-- Input classes on which the normalizer can produce a digits-only output:
after removing the stripped characters, the rest is digits, optionally behind
one leading plus sign. -/
def digitsAfterStripping (t : List Char) : Bool :=
  t.all Char.isDigit || (t.take 1 = ['+'] && (t.drop 1).all Char.isDigit)

/-- String wrapper used by the message service functions. -/
def normalizePhone (s : String) : String :=
  ⟨normalizePhoneNumber s.data⟩

theorem all_isDigit_drop {l : List Char} (h : l.all Char.isDigit = true) (n : Nat) :
    (l.drop n).all Char.isDigit = true := by
  rw [List.all_eq_true] at h ⊢
  exact fun c hc => h c (List.drop_subset n l hc)

/-- C8 counterexample: the claim that `normalize` returns a digits-only
string for every input is false - on the input consisting of the single
letter a, the result is 54a, which contains a non-digit character. -/
theorem normalizePhoneNumber_not_digits_only :
    normalizePhoneNumber ['a'] = ['5', '4', 'a'] ∧
      (['5', '4', 'a'].all Char.isDigit) = false := by
  constructor <;> decide

/-- C8 (amended): the normalization function is pure and total, and its
output is digits-only for every input that, once whitespace, hyphens and
parentheses are stripped, consists of digits optionally preceded by a single
plus sign; other characters (letters, inner plus signs) are passed through
unchanged, so the output is not digits-only in general. -/
theorem normalizePhoneNumber_digits
    (phoneNumber : List Char)
    (h : digitsAfterStripping (phoneNumber.filter (fun c => !isStrippedChar c)) = true) :
    (normalizePhoneNumber phoneNumber).all Char.isDigit = true := by
  unfold normalizePhoneNumber
  unfold digitsAfterStripping at h
  set t := phoneNumber.filter (fun c => !isStrippedChar c) with ht
  have hsp : ∀ u : List Char, stripLeadingPlus ('+' :: u) = u := by
    intro u
    simp [stripLeadingPlus]
  rw [Bool.or_eq_true, Bool.and_eq_true] at h
  rcases h with h | ⟨hplus, hrest⟩
  · -- all characters of the stripped input are digits
    have hne : t.take 1 ≠ ['+'] := by
      intro hc
      have hmem : '+' ∈ t := by
        have : '+' ∈ t.take 1 := by rw [hc]; exact List.mem_singleton.2 rfl
        exact List.take_subset 1 t this
      have := List.all_eq_true.1 h '+' hmem
      simp [Char.isDigit] at this
    unfold normalizeWithPlus
    rw [if_neg hne]
    by_cases h00 : t.take 2 = ['0', '0']
    · rw [if_pos h00, hsp]
      exact all_isDigit_drop h 2
    · rw [if_neg h00]
      by_cases h0 : t.take 1 = ['0']
      · rw [if_pos h0, hsp]
        simp only [List.all_cons, Bool.and_eq_true]
        exact ⟨by decide, by decide, all_isDigit_drop h 1⟩
      · rw [if_neg h0]
        by_cases h54 : t.take 2 = ['5', '4']
        · rw [if_neg (not_not_intro h54), hsp]
          exact h
        · rw [if_pos h54, hsp]
          simp only [List.all_cons, Bool.and_eq_true]
          exact ⟨by decide, by decide, h⟩
  · -- a single leading plus sign followed by digits
    have hp : t.take 1 = ['+'] := of_decide_eq_true hplus
    unfold normalizeWithPlus stripLeadingPlus
    rw [if_pos hp, if_pos hp]
    exact hrest

/-- Witness for the C8 theorem at a concrete local-trunk number. -/
theorem normalizePhoneNumber_digits_witness :
    digitsAfterStripping
        ((['0', '1', '1', ' ', '4', '5', '5', '5', '-', '1', '2', '3', '4']).filter
          (fun c => !isStrippedChar c)) = true ∧
      (normalizePhoneNumber ['0', '1', '1', ' ', '4', '5', '5', '5', '-', '1', '2', '3', '4']).all
          Char.isDigit = true :=
  ⟨by decide,
    normalizePhoneNumber_digits ['0', '1', '1', ' ', '4', '5', '5', '5', '-', '1', '2', '3', '4']
      (by decide)⟩

/-! ## Message and Contact models (src/models/whatsapp/Message.js, Contact.js)

The Mongoose schemas declare the enums below; `create` validates them,
together with the required string fields and the unique index on
`messageId`.  Update queries (`findOneAndUpdate`, `findByIdAndUpdate`)
run no validators unless asked to.
-/

/-- Declared `status` enum of the Message schema. -/
def messageStatusEnum : List String := ["sent", "delivered", "read", "failed"]

/-- Declared `type` enum of the Message schema. -/
def messageTypeEnum : List String :=
  ["text", "image", "document", "audio", "video", "location", "template", "interactive"]

/-- Declared `direction` enum of the Message schema. -/
def messageDirectionEnum : List String := ["inbound", "outbound"]

/-- Content payload of a Message record (the schema's `content` subdocument,
one constructor per shape the service writes). -/
inductive MsgContent
  | text (body : String)
  | media (mediaUrl caption mimeType : String)
  | document (mediaUrl fileName mimeType : String)
  | location (latitude longitude : Int)
  | interactive (payload : String)
  | template (templateName language parameters : String)
  | outboundImage (mediaUrl caption : String)
  deriving Repr, DecidableEq

/-- One document of the `WhatsAppMessage` collection.  The schema field
`type` is called `mtype` here and `local` is `localId` (both are reserved
words in Lean); `rawResponse`/`errorDetails` diagnostics are omitted. -/
structure WAMessage where
  messageId : String
  direction : String
  mtype : String
  content : MsgContent
  contactNumber : String
  contactName : Option String
  businessNumber : String
  status : String
  relatedUser : Option String
  localId : Option String
  sentAt : Option Int
  deliveredAt : Option Int
  readAt : Option Int
  deriving Repr, DecidableEq

/-- One document of the `WhatsAppContact` collection (the fields the
message service reads or writes). -/
structure WAContact where
  phoneNumber : String
  waId : Option String
  name : Option String
  relatedUser : Option String
  localId : Option String
  status : String
  lastActivity : Option Int
  lastIncomingMessage : Option Int
  lastOutgoingMessage : Option Int
  messagesSent : Nat
  messagesReceived : Nat
  deriving Repr, DecidableEq

/-- The persistent store behind the two collections. -/
structure WAStore where
  messages : List WAMessage
  contacts : List WAContact
  deriving Repr, DecidableEq

def emptyWAStore : WAStore := { messages := [], contacts := [] }

/-- Mongoose validation run by `Message.create`: enum membership of
`direction`, `type` and `status`, the required (hence non-empty) string
fields, and the unique index on `messageId`. -/
def validWAMessage (st : WAStore) (m : WAMessage) : Bool :=
  m.messageId ≠ "" && m.contactNumber ≠ "" && m.businessNumber ≠ "" &&
    messageDirectionEnum.contains m.direction &&
    messageTypeEnum.contains m.mtype &&
    messageStatusEnum.contains m.status &&
    (st.messages.find? (fun x => x.messageId == m.messageId)).isNone

/-- `Message.create`: insert after validation; `none` models the thrown
`ValidationError` / duplicate-key error. -/
def messageCreate (st : WAStore) (m : WAMessage) : Option WAStore :=
  if validWAMessage st m then some { st with messages := st.messages ++ [m] } else none

/-- Replace the first element satisfying `p` (the semantics of a Mongo
update on a field with a unique index). -/
def updateFirst (p : α → Bool) (f : α → α) : List α → List α
  | [] => []
  | x :: xs => if p x then f x :: xs else x :: updateFirst p f xs

/-- JavaScript `a || b` on optional strings: the empty string is falsy. -/
def jsOr (a b : Option String) : Option String :=
  match a with
  | some s => if s = "" then b else some s
  | none => b

/-- The `data` argument of `messageService.updateContact`: fields that are
absent (`none`) are not written by the `$set`. -/
structure ContactUpdate where
  messagesSent : Option Nat := none
  messagesReceived : Option Nat := none
  lastActivity : Option Int := none
  lastIncomingMessage : Option Int := none
  lastOutgoingMessage : Option Int := none
  name : Option String := none
  waId : Option String := none
  relatedUser : Option String := none
  localId : Option String := none
  deriving Repr, DecidableEq

/-- The counter adjustment in `updateContact`: a truthy (non-zero) delta is
replaced by the absolute value current + delta before the `$set`. -/
def mergeCounter (current : Nat) : Option Nat → Option Nat
  | some d => if d ≠ 0 then some (current + d) else some d
  | none => none

/-- Embedding of `messageService.updateContact`: normalize the phone, then
either `$set` the merged data on the existing contact or create a fresh one
with `status` active. -/
def updateContact (now : Int) (st : WAStore) (phoneNumber : String) (data : ContactUpdate) :
    WAStore :=
  let normalizedPhone := normalizePhone phoneNumber
  match st.contacts.find? (fun c => c.phoneNumber == normalizedPhone) with
  | some contact =>
      let updated : WAContact :=
        { contact with
          messagesSent := (mergeCounter contact.messagesSent data.messagesSent).getD
            contact.messagesSent,
          messagesReceived := (mergeCounter contact.messagesReceived data.messagesReceived).getD
            contact.messagesReceived,
          lastActivity := data.lastActivity.or contact.lastActivity,
          lastIncomingMessage := data.lastIncomingMessage.or contact.lastIncomingMessage,
          lastOutgoingMessage := data.lastOutgoingMessage.or contact.lastOutgoingMessage,
          name := data.name.or contact.name,
          waId := data.waId.or contact.waId,
          relatedUser := data.relatedUser.or contact.relatedUser,
          localId := data.localId.or contact.localId }
      { st with contacts :=
          updateFirst (fun c => c.phoneNumber == normalizedPhone) (fun _ => updated) st.contacts }
  | none =>
      { st with contacts := st.contacts ++ [{
          phoneNumber := normalizedPhone,
          waId := data.waId,
          name := data.name,
          relatedUser := data.relatedUser,
          localId := data.localId,
          status := "active",
          lastActivity := some (data.lastActivity.getD now),
          lastIncomingMessage := data.lastIncomingMessage,
          lastOutgoingMessage := data.lastOutgoingMessage,
          messagesSent := data.messagesSent.getD 0,
          messagesReceived := data.messagesReceived.getD 0 }] }

/-! ## Webhook ingestion (src/services/whatsapp/messageService.js) -/

/-- The `message` payload of an incoming-message webhook, one constructor
per `message.type` the switch recognizes; `other` is any other type tag
(the switch's default case). -/
inductive IncomingContent
  | text (body : String)
  | image (url caption mimeType : String)
  | video (url caption mimeType : String)
  | document (url fileName mimeType : String)
  | location (latitude longitude : Int)
  | interactive (payload : String)
  | other (mtype : String)
  deriving Repr, DecidableEq

/-- The fields `parseWebhookData` extracts from one webhook element (the
webhook field `from` is called `fromNumber`, a reserved word in Lean). -/
structure IncomingData where
  messageId : String
  fromNumber : String
  toNumber : String
  message : Option IncomingContent
  contactName : Option String
  contactWaId : Option String
  receivedAt : Int
  deriving Repr, DecidableEq

/-- An inbound webhook body: either the fields directly or an Infobip
`results` wrapper. -/
inductive WebhookData
  | direct (d : IncomingData)
  | wrapped (results : List IncomingData)
  deriving Repr, DecidableEq

def emptyIncomingData : IncomingData :=
  { messageId := "", fromNumber := "", toNumber := "", message := none,
    contactName := none, contactWaId := none, receivedAt := 0 }

/-- Embedding of `messageService.parseWebhookData`: take `results[0]` when
the wrapper is present and non-empty, otherwise the body itself (whose
fields then default to empty). -/
def parseWebhookData : WebhookData → IncomingData
  | .direct d => d
  | .wrapped [] => emptyIncomingData
  | .wrapped (d :: _) => d

/-- The content switch of `processIncomingMessage`: stored content and
stored `type` for each recognized payload; anything else becomes the
unsupported placeholder. -/
def contentOf : IncomingContent → MsgContent × String
  | .text b => (.text b, "text")
  | .image u c m => (.media u c m, "image")
  | .video u c m => (.media u c m, "video")
  | .document u f m => (.document u f m, "document")
  | .location la lo => (.location la lo, "location")
  | .interactive p => (.interactive p, "interactive")
  | .other _ => (.text "Tipo de mensaje no soportado", "unsupported")

/-- The `messageData` object `processIncomingMessage` hands to
`Message.create` for a new inbound message. -/
def buildIncomingMessageData (p : IncomingData) (m : IncomingContent)
    (existingContact : Option WAContact) : WAMessage :=
  { messageId := p.messageId,
    direction := "inbound",
    mtype := (contentOf m).2,
    content := (contentOf m).1,
    contactNumber := p.fromNumber,
    contactName := some ((jsOr p.contactName none).getD ""),
    businessNumber := p.toNumber,
    status := "received",
    relatedUser := existingContact.bind (fun c => c.relatedUser),
    localId := existingContact.bind (fun c => c.localId),
    sentAt := some p.receivedAt,
    deliveredAt := none,
    readAt := none }

inductive IngestResult
  | ok (alreadyProcessed : Bool)
  | failure (error : String)
  deriving Repr, DecidableEq

/-- Embedding of `messageService.processIncomingMessage`: reject incomplete
payloads, return success without modification when the `messageId` is
already stored, otherwise build the inbound record, `create` it (the thrown
validation error becomes a caught failure) and update the contact
aggregate. -/
def processIncomingCore (now : Int) (p : IncomingData) (st : WAStore) :
    IngestResult × WAStore :=
  match p.message with
  | none => (.failure "Datos insuficientes", st)
  | some m =>
    if p.messageId = "" ∨ p.fromNumber = "" ∨ p.toNumber = "" then
      (.failure "Datos insuficientes", st)
    else if (st.messages.find? (fun x => x.messageId == p.messageId)).isSome then
      (.ok true, st)
    else
      match messageCreate st
        (buildIncomingMessageData p m
          (st.contacts.find? (fun c => c.phoneNumber == p.fromNumber))) with
      | none => (.failure "validation error", st)
      | some st1 =>
          (.ok false,
            updateContact now st1 p.fromNumber
              { messagesReceived := some 1,
                lastIncomingMessage := some now,
                lastActivity := some now,
                name := jsOr p.contactName
                  ((st.contacts.find? (fun c => c.phoneNumber == p.fromNumber)).bind
                    (fun c => c.name)),
                waId := jsOr p.contactWaId
                  ((st.contacts.find? (fun c => c.phoneNumber == p.fromNumber)).bind
                    (fun c => c.waId)),
                relatedUser :=
                  (st.contacts.find? (fun c => c.phoneNumber == p.fromNumber)).bind
                    (fun c => c.relatedUser),
                localId :=
                  (st.contacts.find? (fun c => c.phoneNumber == p.fromNumber)).bind
                    (fun c => c.localId) })

/-- Embedded entry point: parse the webhook body, then run the core above. -/
def processIncomingMessage (now : Int) (webhookData : WebhookData) (st : WAStore) :
    IngestResult × WAStore :=
  processIncomingCore now (parseWebhookData webhookData) st

inductive UpdateResult
  | ok
  | failure (error : String)
  deriving Repr, DecidableEq

/-- The `$set` document `updateMessageStatus` builds: the new status plus a
delivery or read timestamp when the status warrants one. -/
def setStatusFields (now : Int) (status : String) (m : WAMessage) : WAMessage :=
  { m with
    status := status,
    deliveredAt := if status = "delivered" then some now else m.deliveredAt,
    readAt := if status = "read" then some now else m.readAt }

/-- Embedding of `messageService.updateMessageStatus`: a
`findOneAndUpdate` on `messageId` that `$set`s the status unconditionally
(no validators, no forward-progress guard), or a not-found failure. -/
def updateMessageStatus (now : Int) (st : WAStore) (messageId status : String) :
    UpdateResult × WAStore :=
  match st.messages.find? (fun m => m.messageId == messageId) with
  | none => (.failure "Mensaje no encontrado", st)
  | some _ =>
      (.ok,
        { st with messages :=
            (updateFirst (fun m => m.messageId == messageId) (setStatusFields now status)
              st.messages) })

/-- ASCII lower-casing, the effect of the JS `toLowerCase` on the status
names involved. -/
def toLowerCase (s : String) : String :=
  ⟨s.data.map Char.toLower⟩

/-- Embedding of the status mapping switch in
`messageService.processStatusNotification`. -/
def mapInfobipStatus (status : String) : String :=
  let s := toLowerCase status
  if s = "delivered" then "delivered"
  else if s = "seen" ∨ s = "read" then "read"
  else if s = "failed" ∨ s = "rejected" then "failed"
  else "sent"

/-- A status-report webhook: `messageId` and the nested `status.status`
field, each possibly absent (read with a `|| default`). -/
structure StatusWebhook where
  messageId : Option String
  status : Option String
  deriving Repr, DecidableEq

/-- Embedding of `messageService.processStatusNotification`. -/
def processStatusNotification (now : Int) (st : WAStore) (webhookData : StatusWebhook) :
    UpdateResult × WAStore :=
  let status := webhookData.status.getD ""
  let messageId := webhookData.messageId.getD ""
  if messageId = "" ∨ status = "" then (.failure "Datos insuficientes", st)
  else updateMessageStatus now st messageId (mapInfobipStatus status)

/-! ## Outbound sends (src/services/whatsapp/messageService.js) -/

/-- The discriminated result of a gateway call (`infobipService`); the
raw provider response is dropped as inert. -/
structure GatewayResult where
  success : Bool
  error : Option String
  deriving Repr, DecidableEq

inductive SendResult
  | ok (messageId : String)
  | gatewayFailure (result : GatewayResult)
  | storeFailure (error : String)
  deriving Repr, DecidableEq

/-- Embedding of `messageService.sendText`; the Infobip client is the
function argument `gatewaySendText` (recipient, text). -/
def sendText (gatewaySendText : String → String → GatewayResult)
    (now : Int) (businessNumber messageId : String) (toNumber text : String)
    (contactName relatedUser localId : Option String) (st : WAStore) :
    SendResult × WAStore :=
  let normalizedPhone := normalizePhone toNumber
  let result := gatewaySendText normalizedPhone text
  if !result.success then (.gatewayFailure result, st)
  else
    match messageCreate st
      { messageId := messageId, direction := "outbound", mtype := "text",
        content := .text text, contactNumber := normalizedPhone,
        contactName := contactName, businessNumber := businessNumber,
        status := "sent", relatedUser := relatedUser, localId := localId,
        sentAt := some now, deliveredAt := none, readAt := none } with
    | none => (.storeFailure "create failed", st)
    | some st1 =>
        (.ok messageId,
          updateContact now st1 normalizedPhone
            { messagesSent := some 1, lastOutgoingMessage := some now,
              lastActivity := some now, relatedUser := relatedUser, localId := localId })

/-- Embedding of `messageService.sendTemplate`; the Infobip client is
`gatewaySendTemplate` (recipient, template name, language, parameters). -/
def sendTemplate (gatewaySendTemplate : String → String → String → String → GatewayResult)
    (now : Int) (businessNumber messageId : String)
    (toNumber templateName language parameters : String)
    (contactName relatedUser localId : Option String) (st : WAStore) :
    SendResult × WAStore :=
  let normalizedPhone := normalizePhone toNumber
  let result := gatewaySendTemplate normalizedPhone templateName language parameters
  if !result.success then (.gatewayFailure result, st)
  else
    match messageCreate st
      { messageId := messageId, direction := "outbound", mtype := "template",
        content := .template templateName language parameters,
        contactNumber := normalizedPhone,
        contactName := contactName, businessNumber := businessNumber,
        status := "sent", relatedUser := relatedUser, localId := localId,
        sentAt := some now, deliveredAt := none, readAt := none } with
    | none => (.storeFailure "create failed", st)
    | some st1 =>
        (.ok messageId,
          updateContact now st1 normalizedPhone
            { messagesSent := some 1, lastOutgoingMessage := some now,
              lastActivity := some now, relatedUser := relatedUser, localId := localId })

/-- Embedding of `messageService.sendImage`; the Infobip client is
`gatewaySendImage` (recipient, image url, caption). -/
def sendImage (gatewaySendImage : String → String → String → GatewayResult)
    (now : Int) (businessNumber messageId : String) (toNumber imageUrl caption : String)
    (contactName relatedUser localId : Option String) (st : WAStore) :
    SendResult × WAStore :=
  let normalizedPhone := normalizePhone toNumber
  let result := gatewaySendImage normalizedPhone imageUrl caption
  if !result.success then (.gatewayFailure result, st)
  else
    match messageCreate st
      { messageId := messageId, direction := "outbound", mtype := "image",
        content := .outboundImage imageUrl caption, contactNumber := normalizedPhone,
        contactName := contactName, businessNumber := businessNumber,
        status := "sent", relatedUser := relatedUser, localId := localId,
        sentAt := some now, deliveredAt := none, readAt := none } with
    | none => (.storeFailure "create failed", st)
    | some st1 =>
        (.ok messageId,
          updateContact now st1 normalizedPhone
            { messagesSent := some 1, lastOutgoingMessage := some now,
              lastActivity := some now, relatedUser := relatedUser, localId := localId })

/-! ## Facts about ingestion and sends -/

theorem messageCreate_received (st : WAStore) (md : WAMessage) (h : md.status = "received") :
    messageCreate st md = none := by
  have henum : messageStatusEnum.contains "received" = false := by decide
  have hval : validWAMessage st md = false := by
    unfold validWAMessage
    rw [h, henum]
    simp
  unfold messageCreate
  rw [hval]
  simp

/-- Helper: the inbound ingestion path never changes the store, because the
record it attempts to create carries status received, which fails the
schema's enum validator. -/
theorem processIncomingMessage_store_eq (now : Int) (w : WebhookData) (st : WAStore) :
    (processIncomingMessage now w st).2 = st := by
  unfold processIncomingMessage processIncomingCore
  cases hm : (parseWebhookData w).message with
  | none => rfl
  | some m =>
    simp only [hm]
    by_cases hv : (parseWebhookData w).messageId = "" ∨ (parseWebhookData w).fromNumber = "" ∨
        (parseWebhookData w).toNumber = ""
    · rw [if_pos hv]
    · rw [if_neg hv]
      by_cases hex :
          (st.messages.find? (fun x => x.messageId == (parseWebhookData w).messageId)).isSome =
            true
      · rw [if_pos hex]
      · rw [if_neg hex]
        have hcreate := messageCreate_received st
          (buildIncomingMessageData (parseWebhookData w) m
            (st.contacts.find? (fun c => c.phoneNumber == (parseWebhookData w).fromNumber)))
          rfl
        simp only [hcreate]

def inboundTextWebhook : WebhookData :=
  .direct { messageId := "wamid-001", fromNumber := "5491111111111",
            toNumber := "5490000000000", message := some (.text "hola"),
            contactName := some "Ana", contactWaId := some "5491111111111",
            receivedAt := 100 }

/-- C1 (code bug): a complete, fresh inbound text webhook is NOT ingested
into one Message record with one counter increment - the service hands
`Message.create` a record whose status is received, the schema's status enum
rejects it, so both the first and the second ingestion return a caught
failure and leave the store empty (no Message, no Contact update at all),
where the claim expects the first ingestion to create exactly one record and
one increment. -/
theorem inbound_ingestion_creates_nothing :
    (processIncomingMessage 100 inboundTextWebhook emptyWAStore).1 =
        .failure "validation error" ∧
      (processIncomingMessage 100 inboundTextWebhook emptyWAStore).2 = emptyWAStore ∧
      (processIncomingMessage 101 inboundTextWebhook
          (processIncomingMessage 100 inboundTextWebhook emptyWAStore).2).1 =
        .failure "validation error" ∧
      (processIncomingMessage 101 inboundTextWebhook
          (processIncomingMessage 100 inboundTextWebhook emptyWAStore).2).2 = emptyWAStore := by
  refine ⟨by decide, by decide, by decide, by decide⟩

/-- C10: every Message record the inbound ingestion path attempts to create
has status received, a value outside the schema's declared status enum; an
unrecognized content type is stored as type unsupported, also outside the
declared type enum; consequently no inbound ingestion ever adds a Message at
all, let alone one whose initial status lies in the declared set. -/
theorem inbound_status_outside_declared_enum :
    (∀ (p : IncomingData) (m : IncomingContent) (ex : Option WAContact),
        (buildIncomingMessageData p m ex).status = "received" ∧
          messageStatusEnum.contains (buildIncomingMessageData p m ex).status = false) ∧
      (∀ (p : IncomingData) (t : String) (ex : Option WAContact),
          (buildIncomingMessageData p (.other t) ex).mtype = "unsupported" ∧
            messageTypeEnum.contains "unsupported" = false) ∧
      (∀ (now : Int) (w : WebhookData) (st : WAStore),
          ((processIncomingMessage now w st).2).messages = st.messages) := by
  refine ⟨fun p m ex => ⟨rfl, ?_⟩, fun p t ex => ⟨rfl, by decide⟩, fun now w st => ?_⟩
  · rw [show (buildIncomingMessageData p m ex).status = "received" from rfl]
    decide
  · rw [processIncomingMessage_store_eq]

theorem find?_updateFirst_of_found {α : Type} (p : α → Bool) (f : α → α) (l : List α) (a : α)
    (hfind : l.find? p = some a) (hpf : p (f a) = true) :
    (updateFirst p f l).find? p = some (f a) := by
  induction l with
  | nil => simp at hfind
  | cons x xs ih =>
    unfold updateFirst
    by_cases hx : p x = true
    · rw [if_pos hx]
      rw [List.find?_cons_of_pos _ hx] at hfind
      injection hfind with h
      subst h
      rw [List.find?_cons_of_pos _ hpf]
    · rw [if_neg hx]
      rw [List.find?_cons_of_neg _ (by simpa using hx)] at hfind
      rw [List.find?_cons_of_neg _ (by simpa using hx)]
      exact ih hfind

/-- C2 (amended): status reports are applied unconditionally - for any
stored message matching the report's id, processing a status report rewrites
that message's status to the mapped status (stamping the delivered/read
timestamp), with no forward-progress guard; in particular a stale delivered
report regresses a read message to delivered. -/
theorem status_report_overwrites_status
    (now : Int) (st : WAStore) (mid s : String) (m : WAMessage)
    (hmid : mid ≠ "") (hs : s ≠ "")
    (hfind : st.messages.find? (fun x => x.messageId == mid) = some m) :
    (processStatusNotification now st { messageId := some mid, status := some s }).1 = .ok ∧
      ((processStatusNotification now st
            { messageId := some mid, status := some s }).2).messages.find?
          (fun x => x.messageId == mid) =
        some (setStatusFields now (mapInfobipStatus s) m) := by
  unfold processStatusNotification
  simp only [Option.getD_some]
  rw [if_neg (by simp [hmid, hs])]
  unfold updateMessageStatus
  rw [hfind]
  refine ⟨rfl, ?_⟩
  apply find?_updateFirst_of_found _ _ _ _ hfind
  have hm := List.find?_some hfind
  simpa [setStatusFields] using hm

def readMessage : WAMessage :=
  { messageId := "m1", direction := "outbound", mtype := "text", content := .text "hola",
    contactNumber := "5491111111111", contactName := none,
    businessNumber := "5490000000000", status := "read", relatedUser := none,
    localId := none, sentAt := some 1, deliveredAt := some 2, readAt := some 3 }

def readStore : WAStore := { messages := [readMessage], contacts := [] }

/-- Witness for the C2 theorem: a concrete read message and a stale
delivered report. -/
theorem status_report_overwrites_status_witness :
    ("m1" ≠ "" ∧ "delivered" ≠ "" ∧
        readStore.messages.find? (fun x => x.messageId == "m1") = some readMessage) ∧
      (processStatusNotification 10 readStore
            { messageId := some "m1", status := some "delivered" }).1 = .ok ∧
        ((processStatusNotification 10 readStore
              { messageId := some "m1", status := some "delivered" }).2).messages.find?
            (fun x => x.messageId == "m1") =
          some (setStatusFields 10 (mapInfobipStatus "delivered") readMessage) :=
  ⟨⟨by decide, by decide, by decide⟩,
    status_report_overwrites_status 10 readStore "m1" "delivered" readMessage
      (by decide) (by decide) (by decide)⟩

/-- C2 counterexample: a message stored at status read, on receipt of a
stale delivered report, ends at status delivered - not at read, as the
claim requires. -/
theorem stale_delivered_regresses_read :
    ((processStatusNotification 10 readStore
          { messageId := some "m1", status := some "delivered" }).2).messages.map
        (fun m => m.status) = ["delivered"] := by
  decide

/-- C6: outbound failure atomicity - when the gateway call fails, each of
the three send operations (text, template, image) returns the gateway's
discriminated failure result without throwing and leaves the store exactly
as it was (no Message created, no Contact modified). -/
theorem outbound_gateway_failure_leaves_store
    (gwText : String → String → GatewayResult)
    (gwTemplate : String → String → String → String → GatewayResult)
    (gwImage : String → String → String → GatewayResult)
    (now : Int) (bn mid toNumber text tname lang params imageUrl caption : String)
    (cn ru lid : Option String) (st : WAStore) :
    ((gwText (normalizePhone toNumber) text).success = false →
        sendText gwText now bn mid toNumber text cn ru lid st =
          (.gatewayFailure (gwText (normalizePhone toNumber) text), st)) ∧
      ((gwTemplate (normalizePhone toNumber) tname lang params).success = false →
        sendTemplate gwTemplate now bn mid toNumber tname lang params cn ru lid st =
          (.gatewayFailure (gwTemplate (normalizePhone toNumber) tname lang params), st)) ∧
      ((gwImage (normalizePhone toNumber) imageUrl caption).success = false →
        sendImage gwImage now bn mid toNumber imageUrl caption cn ru lid st =
          (.gatewayFailure (gwImage (normalizePhone toNumber) imageUrl caption), st)) := by
  refine ⟨fun h => ?_, fun h => ?_, fun h => ?_⟩
  · simp only [sendText]
    rw [h]
    rfl
  · simp only [sendTemplate]
    rw [h]
    rfl
  · simp only [sendImage]
    rw [h]
    rfl

def failingGatewayResult : GatewayResult := { success := false, error := some "401" }

/-- Witness for the C6 theorem with a constantly failing gateway. -/
theorem outbound_gateway_failure_leaves_store_witness :
    (((fun _ _ => failingGatewayResult : String → String → GatewayResult)
          (normalizePhone "011 4555-1234") "hola").success = false ∧
        sendText (fun _ _ => failingGatewayResult) 5 "549" "id1" "011 4555-1234" "hola"
            none none none emptyWAStore =
          (.gatewayFailure failingGatewayResult, emptyWAStore)) ∧
      sendTemplate (fun _ _ _ _ => failingGatewayResult) 5 "549" "id1" "011 4555-1234"
          "tpl" "es" "" none none none emptyWAStore =
        (.gatewayFailure failingGatewayResult, emptyWAStore) ∧
      sendImage (fun _ _ _ => failingGatewayResult) 5 "549" "id1" "011 4555-1234"
          "http" "cap" none none none emptyWAStore =
        (.gatewayFailure failingGatewayResult, emptyWAStore) :=
  ⟨⟨rfl,
      (outbound_gateway_failure_leaves_store (fun _ _ => failingGatewayResult)
        (fun _ _ _ _ => failingGatewayResult) (fun _ _ _ => failingGatewayResult)
        5 "549" "id1" "011 4555-1234" "hola" "tpl" "es" "" "http" "cap"
        none none none emptyWAStore).1 rfl⟩,
    (outbound_gateway_failure_leaves_store (fun _ _ => failingGatewayResult)
        (fun _ _ _ _ => failingGatewayResult) (fun _ _ _ => failingGatewayResult)
        5 "549" "id1" "011 4555-1234" "hola" "tpl" "es" "" "http" "cap"
        none none none emptyWAStore).2.1 rfl,
    (outbound_gateway_failure_leaves_store (fun _ _ => failingGatewayResult)
        (fun _ _ _ _ => failingGatewayResult) (fun _ _ _ => failingGatewayResult)
        5 "549" "id1" "011 4555-1234" "hola" "tpl" "es" "" "http" "cap"
        none none none emptyWAStore).2.2 rfl⟩

/-! ## Reminder model and scheduler
(src/models/Recordatorio.js, src/services/recordatorioService.js)

The dispatch helpers look up recipients in the `User`/`Cliente` collections
and call the email/SMS/WhatsApp transports; both are environment functions
here.  `sendEmail`, `sendSMS` and `sendWhatsAppMessage` return a boolean and
never throw (each catches internally), exactly as in the source, and the
dispatch loops ignore that boolean.
-/

/-- Schema enum of `Recordatorio.prioridad` (ascending intent order). -/
def prioridadEnum : List String := ["BAJA", "MEDIA", "ALTA", "URGENTE"]

/-- Schema enum of `Recordatorio.estado`. -/
def estadoEnum : List String := ["PENDIENTE", "ENVIADO", "FALLIDO", "CANCELADO"]

/-- One entry of `Recordatorio.destinatarios`. -/
structure Destinatario where
  tipo : String
  id : Nat
  notificado : Bool
  deriving Repr, DecidableEq

/-- The populated `evento` reference (title and start instant). -/
structure EventoRef where
  titulo : String
  fechaInicio : Option Int
  deriving Repr, DecidableEq

/-- A row of the `User` or `Cliente` collection, reduced to the fields the
dispatchers select. -/
structure Persona where
  nombre : String
  apellido : String
  email : Option String
  telefono : Option String
  deriving Repr, DecidableEq

structure PlantillaPersonalizada where
  asunto : Option String
  contenido : Option String
  deriving Repr, DecidableEq

/-- One document of the `Recordatorio` collection (the fields the scheduler
reads or writes; `rid` is the document id). -/
structure Recordatorio where
  rid : Nat
  titulo : String
  descripcion : Option String
  evento : Option EventoRef
  cliente : Option Persona
  fechaProgramada : Int
  tipo : String
  destinatarios : List Destinatario
  estado : String
  plantillaPersonalizada : Option PlantillaPersonalizada
  intentos : Nat
  ultimoIntento : Option Int
  mensajeError : Option String
  prioridad : String
  deriving Repr, DecidableEq

structure EmailOptions where
  toAddr : String
  subject : String
  html : String
  textBody : String
  deriving Repr, DecidableEq

structure SmsOptions where
  toNumber : String
  message : String
  deriving Repr, DecidableEq

structure WATemplateData where
  nombre : String
  titulo : String
  fecha : String
  deriving Repr, DecidableEq

structure WhatsAppOptions where
  toNumber : String
  message : String
  templateName : String
  templateData : WATemplateData
  deriving Repr, DecidableEq

/-- External collaborators of the reminder scheduler: the three transports
(boolean result, no throw - each catches internally) and the es-ES date
formatting.  The `User`/`Cliente` collections are NOT here: the service
module reaches them only through the identifier `mongoose`, which it never
imports (see `resolverTelefono`). -/
structure SchedulerEnv where
  sendEmail : EmailOptions → Bool
  sendSMS : SmsOptions → Bool
  sendWhatsAppMessage : WhatsAppOptions → Bool
  formatDateTime : Int → String
  formatDate : Int → String

/-- The prepared notification (subject and body). -/
structure Mensaje where
  asunto : String
  contenido : String
  deriving Repr, DecidableEq

/-- State machine for the JS `replace` that deletes every angle-bracket tag
(an opening bracket, then characters other than the closing bracket, then the
closing bracket): the first argument holds the pending characters (reversed)
of a tag opened but not yet closed; an unclosed tag at the end of the input
is kept verbatim, as the regex then has no match there. -/
def stripTagsGo : Option (List Char) → List Char → List Char
  | none, [] => []
  | none, c :: cs => if c = '<' then stripTagsGo (some [c]) cs else c :: stripTagsGo none cs
  | some buf, [] => buf.reverse
  | some buf, c :: cs =>
      if c = '>' then stripTagsGo none cs
      else stripTagsGo (some (c :: buf)) cs

def stripTagsAux (l : List Char) : List Char :=
  stripTagsGo none l

/-- Plain-text version of an HTML body. -/
def stripTags (s : String) : String :=
  ⟨stripTagsAux s.data⟩

/-- Embedding of `reemplazarVariables`: global literal replacement of the
event, client and date placeholders. -/
def reemplazarVariables (env : SchedulerEnv) (now : Int) (texto : String)
    (r : Recordatorio) : String :=
  let resultado := texto
  let resultado :=
    match r.evento with
    | some ev =>
        (resultado.replace "\x7bevento.titulo\x7d" ev.titulo).replace "\x7bevento.fecha\x7d"
          (match ev.fechaInicio with
            | some f => env.formatDateTime f
            | none => "fecha no especificada")
    | none => resultado
  let resultado :=
    match r.cliente with
    | some c =>
        ((((resultado.replace "\x7bcliente.nombre\x7d" c.nombre).replace
              "\x7bcliente.apellido\x7d" c.apellido).replace
              "\x7bcliente.email\x7d" (c.email.getD "")).replace
              "\x7bcliente.telefono\x7d" (c.telefono.getD "")).replace
          "\x7bcliente.nombreCompleto\x7d" ((c.nombre ++ " " ++ c.apellido).trim)
    | none => resultado
  (resultado.replace "\x7bfecha.hoy\x7d" (env.formatDate now)).replace
    "\x7bfecha.ahora\x7d" (env.formatDateTime now)

/-- The standard message used when no custom template applies. -/
def mensajeEstandar (env : SchedulerEnv) (r : Recordatorio) : Mensaje :=
  match r.evento with
  | some ev =>
      { asunto := "Recordatorio: " ++ ev.titulo,
        contenido :=
          "\n      Tienes un evento programado para " ++
            (match ev.fechaInicio with
              | some f => env.formatDateTime f
              | none => "fecha no especificada") ++
            ".\n      \n      " ++ r.descripcion.getD "" ++ "\n    " }
  | none =>
      { asunto := if r.titulo = "" then "Recordatorio" else r.titulo,
        contenido := r.descripcion.getD "" }

/-- Embedding of `prepararMensaje`: variable substitution over the custom
template when its subject and body are both present and non-empty, else the
standard message. -/
def prepararMensaje (env : SchedulerEnv) (now : Int) (r : Recordatorio) : Mensaje :=
  match r.plantillaPersonalizada with
  | some pl =>
      if (pl.asunto.getD "") ≠ "" ∧ (pl.contenido.getD "") ≠ "" then
        { asunto := reemplazarVariables env now (pl.asunto.getD "") r,
          contenido := reemplazarVariables env now (pl.contenido.getD "") r }
      else mensajeEstandar env r
  | none => mensajeEstandar env r

/-- A recipient resolved to a phone number and a display name. -/
structure DestinatarioResuelto where
  telefono : String
  nombre : String
  deriving Repr, DecidableEq

/-- One step of the phone-resolution loop shared by the SMS and WhatsApp
dispatchers.  The source reads `mongoose.model('User'/'Cliente').findById`
for USUARIO and CLIENTE recipients, but the service module never imports
`mongoose`; under ES-module strict mode the unbound identifier throws a
`ReferenceError`, modelled by `Except.error`, before the row or its phone
field is ever read.  A recipient of any other tipo matches neither branch
and contributes nothing. -/
def resolverTelefono (d : Destinatario) : Except String (Option DestinatarioResuelto) :=
  if d.tipo = "USUARIO" then
    Except.error "mongoose is not defined"
  else if d.tipo = "CLIENTE" then
    Except.error "mongoose is not defined"
  else
    Except.ok none

/-- The analogous email-resolution step of the email dispatcher: the same
unbound `mongoose` read throws for USUARIO and CLIENTE recipients. -/
def resolverEmail (d : Destinatario) : Except String (Option (String × String)) :=
  if d.tipo = "USUARIO" then
    Except.error "mongoose is not defined"
  else if d.tipo = "CLIENTE" then
    Except.error "mongoose is not defined"
  else
    Except.ok none

/-- The recipient-collection for-loop of each dispatcher: stop at the first
thrown `ReferenceError`, keep the resolved entries in order otherwise. -/
def collectDestinatarios (resolver : Destinatario → Except String (Option α)) :
    List Destinatario → Except String (List α)
  | [] => Except.ok []
  | d :: ds =>
      match resolver d with
      | .error e => Except.error e
      | .ok none => collectDestinatarios resolver ds
      | .ok (some x) => (collectDestinatarios resolver ds).map (fun xs => x :: xs)

/-- Embedding of `enviarPorWhatsApp`: resolve recipients (the lookup throws
into the catch, which logs and returns false), fail when none resolves,
otherwise send to each and return true with every transport result
discarded.  With the unbound `mongoose`, only the two false branches are
reachable. -/
def enviarPorWhatsApp (env : SchedulerEnv) (now : Int) (r : Recordatorio)
    (mensaje : Mensaje) : Bool :=
  match collectDestinatarios resolverTelefono r.destinatarios with
  | .error _ => false
  | .ok [] => false
  | .ok (d :: ds) =>
      let _ignoredSendResults := (d :: ds).map (fun x =>
        env.sendWhatsAppMessage
          { toNumber := x.telefono,
            message := stripTags mensaje.contenido,
            templateName := "recordatorio",
            templateData :=
              { nombre := x.nombre,
                titulo := mensaje.asunto,
                fecha :=
                  match r.evento with
                  | some ev =>
                      match ev.fechaInicio with
                      | some f => env.formatDateTime f
                      | none => env.formatDateTime now
                  | none => env.formatDateTime now } })
      true

/-- Embedding of `enviarPorEmail` (same shape, same caught throw; the send
results are discarded). -/
def enviarPorEmail (env : SchedulerEnv) (r : Recordatorio) (mensaje : Mensaje) : Bool :=
  match collectDestinatarios resolverEmail r.destinatarios with
  | .error _ => false
  | .ok [] => false
  | .ok (d :: ds) =>
      let _ignoredSendResults := (d :: ds).map (fun x =>
        env.sendEmail
          { toAddr := x.1, subject := mensaje.asunto, html := mensaje.contenido,
            textBody := stripTags mensaje.contenido })
      true

/-- Embedding of `enviarPorSMS` (same shape, same caught throw; the body is
truncated to 160 characters). -/
def enviarPorSMS (env : SchedulerEnv) (r : Recordatorio) (mensaje : Mensaje) : Bool :=
  match collectDestinatarios resolverTelefono r.destinatarios with
  | .error _ => false
  | .ok [] => false
  | .ok (d :: ds) =>
      let contenidoSMS := (mensaje.asunto ++ ": " ++ stripTags mensaje.contenido).take 160
      let _ignoredSendResults := (d :: ds).map (fun x =>
        env.sendSMS { toNumber := x.telefono, message := contenidoSMS })
      true

/-- The per-type dispatch switch of `procesarRecordatorio` (`NOTIFICACION`
and unsupported types both yield false). -/
def dispatchRecordatorio (env : SchedulerEnv) (now : Int) (mensaje : Mensaje)
    (r : Recordatorio) : Bool :=
  match r.tipo with
  | "EMAIL" => enviarPorEmail env r mensaje
  | "SMS" => enviarPorSMS env r mensaje
  | "WHATSAPP" => enviarPorWhatsApp env now r mensaje
  | _ => false

/-- Embedding of `procesarRecordatorio`: bump the attempt counter, prepare
the message, dispatch; on success mark the reminder sent and every recipient
notified; on failure mark it failed only from the third attempt on, else
leave it pending; stamp the attempt instant either way.  (The dispatch
helpers catch their own recipient-lookup throw and return false, so nothing
reaches this function's catch branch, which is therefore not modelled.) -/
def procesarRecordatorio (env : SchedulerEnv) (now : Int) (recordatorio : Recordatorio) :
    Recordatorio × Bool :=
  let r := { recordatorio with intentos := recordatorio.intentos + 1 }
  let mensaje := prepararMensaje env now r
  let resultado := dispatchRecordatorio env now mensaje r
  if resultado then
    ({ r with
        estado := "ENVIADO",
        ultimoIntento := some now,
        destinatarios := r.destinatarios.map (fun d => { d with notificado := true }) },
      true)
  else
    let r :=
      if r.intentos ≥ 3 then
        { r with
            estado := "FALLIDO",
            mensajeError := some "Máximo número de intentos alcanzado" }
      else r
    ({ r with ultimoIntento := some now }, false)

/-- Lexicographic strictly-less on character lists, the order in which the
store compares two values of a string field (byte-wise, no collation on
the schema; these enum values are ASCII). -/
def ltChars : List Char → List Char → Bool
  | [], [] => false
  | [], _ :: _ => true
  | _ :: _, [] => false
  | a :: as, b :: bs => if a < b then true else if b < a then false else ltChars as bs

/-- Byte-wise string comparison used by the store's sort. -/
def strLt (a b : String) : Bool :=
  ltChars a.data b.data

theorem ltChars_trans : ∀ (as bs cs : List Char),
    ltChars as bs = true → ltChars bs cs = true → ltChars as cs = true := by
  intro as
  induction as with
  | nil =>
    intro bs cs h1 h2
    cases bs with
    | nil => simp [ltChars] at h1
    | cons b bs2 =>
      cases cs with
      | nil => simp [ltChars] at h2
      | cons c cs2 => simp [ltChars]
  | cons a as2 ih =>
    intro bs cs h1 h2
    cases bs with
    | nil => simp [ltChars] at h1
    | cons b bs2 =>
      cases cs with
      | nil => simp [ltChars] at h2
      | cons c cs2 =>
        unfold ltChars at h1 h2 ⊢
        rcases lt_trichotomy a b with hab | hab | hab
        · rcases lt_trichotomy b c with hbc | hbc | hbc
          · rw [if_pos (hab.trans hbc)]
          · subst hbc
            rw [if_pos hab]
          · rw [if_neg (asymm hbc), if_pos hbc] at h2
            exact absurd h2 (by simp)
        · subst hab
          rw [if_neg (lt_irrefl a), if_neg (lt_irrefl a)] at h1
          rcases lt_trichotomy a c with hac | hac | hac
          · rw [if_pos hac]
          · subst hac
            rw [if_neg (lt_irrefl a), if_neg (lt_irrefl a)] at h2 ⊢
            exact ih bs2 cs2 h1 h2
          · rw [if_neg (asymm hac), if_pos hac] at h2
            exact absurd h2 (by simp)
        · rw [if_neg (asymm hab), if_pos hab] at h1
          exact absurd h1 (by simp)

theorem ltChars_trichotomy : ∀ (as bs : List Char),
    ltChars as bs = true ∨ as = bs ∨ ltChars bs as = true := by
  intro as
  induction as with
  | nil =>
    intro bs
    cases bs with
    | nil => exact Or.inr (Or.inl rfl)
    | cons b bs2 => exact Or.inl (by simp [ltChars])
  | cons a as2 ih =>
    intro bs
    cases bs with
    | nil => exact Or.inr (Or.inr (by simp [ltChars]))
    | cons b bs2 =>
      rcases lt_trichotomy a b with h | h | h
      · refine Or.inl ?_
        unfold ltChars
        rw [if_pos h]
      · subst h
        rcases ih bs2 with h2 | h2 | h2
        · refine Or.inl ?_
          unfold ltChars
          rw [if_neg (lt_irrefl a), if_neg (lt_irrefl a)]
          exact h2
        · subst h2
          exact Or.inr (Or.inl rfl)
        · refine Or.inr (Or.inr ?_)
          unfold ltChars
          rw [if_neg (lt_irrefl a), if_neg (lt_irrefl a)]
          exact h2
      · refine Or.inr (Or.inr ?_)
        unfold ltChars
        rw [if_pos h]

/-- The Mongo sort key of the scheduler's query, as a relation: `prioridad`
descending (byte-wise string comparison) then `fechaProgramada` ascending. -/
def recordatorioLE (a b : Recordatorio) : Prop :=
  strLt b.prioridad a.prioridad = true ∨
    (a.prioridad = b.prioridad ∧ a.fechaProgramada ≤ b.fechaProgramada)

instance : DecidableRel recordatorioLE := fun a b =>
  inferInstanceAs (Decidable (strLt b.prioridad a.prioridad = true ∨
    (a.prioridad = b.prioridad ∧ a.fechaProgramada ≤ b.fechaProgramada)))

instance : IsTotal Recordatorio recordatorioLE :=
  ⟨fun a b => by
    unfold recordatorioLE strLt
    rcases ltChars_trichotomy a.prioridad.data b.prioridad.data with h | h | h
    · exact Or.inr (Or.inl h)
    · have hpr : a.prioridad = b.prioridad := String.ext h
      rcases le_total a.fechaProgramada b.fechaProgramada with hf | hf
      · exact Or.inl (Or.inr ⟨hpr, hf⟩)
      · exact Or.inr (Or.inr ⟨hpr.symm, hf⟩)
    · exact Or.inl (Or.inl h)⟩

instance : IsTrans Recordatorio recordatorioLE :=
  ⟨fun a b c hab hbc => by
    unfold recordatorioLE at *
    rcases hab with hab | ⟨hab, haf⟩
    · rcases hbc with hbc | ⟨hbc, _⟩
      · exact Or.inl (ltChars_trans _ _ _ hbc hab)
      · exact Or.inl (hbc ▸ hab)
    · rcases hbc with hbc | ⟨hbc, hbf⟩
      · exact Or.inl (by rw [hab]; exact hbc)
      · exact Or.inr ⟨hab.trans hbc, haf.trans hbf⟩⟩

/-- The scheduler's query: pending reminders already due, sorted by the key
above. -/
def recordatoriosPendientes (now : Int) (store : List Recordatorio) : List Recordatorio :=
  List.insertionSort recordatorioLE
    (store.filter (fun r => r.fechaProgramada ≤ now && r.estado == "PENDIENTE"))

/-- Embedding of `procesarRecordatoriosPendientes`: fetch the due pending
reminders in query order, process each sequentially, saving each updated
document back; returns the processed ids in processing order together with
the final store. -/
def procesarRecordatoriosPendientes (env : SchedulerEnv) (now : Int)
    (store : List Recordatorio) : List Nat × List Recordatorio :=
  let pendientes := recordatoriosPendientes now store
  (pendientes.map (fun r => r.rid),
    pendientes.foldl
      (fun acc r =>
        updateFirst (fun x => x.rid == r.rid) (fun _ => (procesarRecordatorio env now r).1) acc)
      store)

/-! ## Facts about the scheduler -/

theorem dispatch_depends_only (env : SchedulerEnv) (now : Int) (m : Mensaje)
    (a b : Recordatorio) (h1 : a.tipo = b.tipo) (h2 : a.destinatarios = b.destinatarios)
    (h3 : a.evento = b.evento) :
    dispatchRecordatorio env now m a = dispatchRecordatorio env now m b := by
  unfold dispatchRecordatorio enviarPorEmail enviarPorSMS enviarPorWhatsApp
  rw [h1, h2, h3]

theorem procesar_fail_step (env : SchedulerEnv) (now : Int) (r : Recordatorio)
    (hfail : ∀ m : Mensaje, dispatchRecordatorio env now m r = false)
    (hlow : r.intentos + 1 < 3) :
    procesarRecordatorio env now r =
      ({ r with intentos := r.intentos + 1, ultimoIntento := some now }, false) := by
  unfold procesarRecordatorio
  have hd : dispatchRecordatorio env now
      (prepararMensaje env now { r with intentos := r.intentos + 1 })
      { r with intentos := r.intentos + 1 } = false := by
    rw [dispatch_depends_only env now _ { r with intentos := r.intentos + 1 } r rfl rfl rfl]
    exact hfail _
  simp only [hd, Bool.false_eq_true, if_false]
  rw [if_neg (show ¬ r.intentos + 1 ≥ 3 by omega)]

theorem procesar_fail_final (env : SchedulerEnv) (now : Int) (r : Recordatorio)
    (hfail : ∀ m : Mensaje, dispatchRecordatorio env now m r = false)
    (hhigh : r.intentos + 1 ≥ 3) :
    procesarRecordatorio env now r =
      ({ r with
          intentos := r.intentos + 1,
          estado := "FALLIDO",
          mensajeError := some "Máximo número de intentos alcanzado",
          ultimoIntento := some now }, false) := by
  unfold procesarRecordatorio
  have hd : dispatchRecordatorio env now
      (prepararMensaje env now { r with intentos := r.intentos + 1 })
      { r with intentos := r.intentos + 1 } = false := by
    rw [dispatch_depends_only env now _ { r with intentos := r.intentos + 1 } r rfl rfl rfl]
    exact hfail _
  simp only [hd, Bool.false_eq_true, if_false]
  rw [if_pos (show r.intentos + 1 ≥ 3 by omega)]

/-- C4: retry cap - a pending reminder whose dispatch returns failure
(without throwing) on every attempt stays pending after the first and second
attempts, and transitions to failed exactly on the third, with the attempt
counter at three and the error message set at that moment. -/
theorem reminder_failed_exactly_after_third_attempt
    (env : SchedulerEnv) (t1 t2 t3 : Int) (r : Recordatorio)
    (hestado : r.estado = "PENDIENTE") (hintentos : r.intentos = 0)
    (hfail : ∀ (now : Int) (m : Mensaje), dispatchRecordatorio env now m r = false) :
    ((procesarRecordatorio env t1 r).1.estado = "PENDIENTE" ∧
        (procesarRecordatorio env t1 r).1.intentos = 1 ∧
        (procesarRecordatorio env t1 r).1.mensajeError = r.mensajeError) ∧
      ((procesarRecordatorio env t2 (procesarRecordatorio env t1 r).1).1.estado =
          "PENDIENTE" ∧
        (procesarRecordatorio env t2 (procesarRecordatorio env t1 r).1).1.intentos = 2 ∧
        (procesarRecordatorio env t2 (procesarRecordatorio env t1 r).1).1.mensajeError =
          r.mensajeError) ∧
      ((procesarRecordatorio env t3
            (procesarRecordatorio env t2 (procesarRecordatorio env t1 r).1).1).1.estado =
          "FALLIDO" ∧
        (procesarRecordatorio env t3
            (procesarRecordatorio env t2 (procesarRecordatorio env t1 r).1).1).1.intentos = 3 ∧
        (procesarRecordatorio env t3
              (procesarRecordatorio env t2 (procesarRecordatorio env t1 r).1).1).1.mensajeError =
          some "Máximo número de intentos alcanzado") := by
  have h1 : procesarRecordatorio env t1 r =
      ({ r with intentos := r.intentos + 1, ultimoIntento := some t1 }, false) :=
    procesar_fail_step env t1 r (hfail t1) (by omega)
  have hfail1 : ∀ m : Mensaje, dispatchRecordatorio env t2 m
      ({ r with intentos := r.intentos + 1, ultimoIntento := some t1 }) = false :=
    fun m => (dispatch_depends_only env t2 m _ r rfl rfl rfl).trans (hfail t2 m)
  have h2 : procesarRecordatorio env t2
        ({ r with intentos := r.intentos + 1, ultimoIntento := some t1 }) =
      ({ r with intentos := r.intentos + 1 + 1, ultimoIntento := some t2 }, false) :=
    procesar_fail_step env t2 _ hfail1 (show r.intentos + 1 + 1 < 3 by omega)
  have hfail2 : ∀ m : Mensaje, dispatchRecordatorio env t3 m
      ({ r with intentos := r.intentos + 1 + 1, ultimoIntento := some t2 }) = false :=
    fun m => (dispatch_depends_only env t3 m _ r rfl rfl rfl).trans (hfail t3 m)
  have h3 : procesarRecordatorio env t3
        ({ r with intentos := r.intentos + 1 + 1, ultimoIntento := some t2 }) =
      ({ r with
          intentos := r.intentos + 1 + 1 + 1,
          estado := "FALLIDO",
          mensajeError := some "Máximo número de intentos alcanzado",
          ultimoIntento := some t3 }, false) :=
    procesar_fail_final env t3 _ hfail2 (show r.intentos + 1 + 1 + 1 ≥ 3 by omega)
  rw [h1]
  rw [show (({ r with intentos := r.intentos + 1, ultimoIntento := some t1 },
      false) : Recordatorio × Bool).1 =
      { r with intentos := r.intentos + 1, ultimoIntento := some t1 } from rfl]
  rw [h2]
  rw [show (({ r with intentos := r.intentos + 1 + 1, ultimoIntento := some t2 },
      false) : Recordatorio × Bool).1 =
      { r with intentos := r.intentos + 1 + 1, ultimoIntento := some t2 } from rfl]
  rw [h3]
  simp [hintentos, hestado]

/-- A scheduler environment for the concrete runs (constant transports and
formatting; no dispatch can succeed under any environment, since recipient
resolution throws). -/
def envUnresolved : SchedulerEnv :=
  { sendEmail := fun _ => true,
    sendSMS := fun _ => true,
    sendWhatsAppMessage := fun _ => true,
    formatDateTime := fun _ => "01/01/2025",
    formatDate := fun _ => "01/01/2025" }

/-- A minimal pending reminder used in witnesses (one WhatsApp recipient). -/
def recordatorioBase : Recordatorio :=
  { rid := 7, titulo := "Cita", descripcion := none, evento := none, cliente := none,
    fechaProgramada := 0, tipo := "WHATSAPP",
    destinatarios := [{ tipo := "USUARIO", id := 1, notificado := false }],
    estado := "PENDIENTE", plantillaPersonalizada := none, intentos := 0,
    ultimoIntento := none, mensajeError := none, prioridad := "MEDIA" }

/-- Witness for the C4 theorem: a reminder whose recipient lookup throws
(caught into a failed dispatch) on every attempt. -/
theorem reminder_failed_exactly_after_third_attempt_witness :
    (recordatorioBase.estado = "PENDIENTE" ∧ recordatorioBase.intentos = 0) ∧
      ((procesarRecordatorio envUnresolved 1 recordatorioBase).1.estado = "PENDIENTE" ∧
          (procesarRecordatorio envUnresolved 1 recordatorioBase).1.intentos = 1 ∧
          (procesarRecordatorio envUnresolved 1 recordatorioBase).1.mensajeError =
            recordatorioBase.mensajeError) ∧
        ((procesarRecordatorio envUnresolved 2
              (procesarRecordatorio envUnresolved 1 recordatorioBase).1).1.estado =
            "PENDIENTE" ∧
          (procesarRecordatorio envUnresolved 2
              (procesarRecordatorio envUnresolved 1 recordatorioBase).1).1.intentos = 2 ∧
          (procesarRecordatorio envUnresolved 2
                (procesarRecordatorio envUnresolved 1 recordatorioBase).1).1.mensajeError =
            recordatorioBase.mensajeError) ∧
        ((procesarRecordatorio envUnresolved 3
              (procesarRecordatorio envUnresolved 2
                (procesarRecordatorio envUnresolved 1 recordatorioBase).1).1).1.estado =
            "FALLIDO" ∧
          (procesarRecordatorio envUnresolved 3
              (procesarRecordatorio envUnresolved 2
                (procesarRecordatorio envUnresolved 1 recordatorioBase).1).1).1.intentos = 3 ∧
          (procesarRecordatorio envUnresolved 3
                (procesarRecordatorio envUnresolved 2
                  (procesarRecordatorio envUnresolved 1
                    recordatorioBase).1).1).1.mensajeError =
            some "Máximo número de intentos alcanzado") :=
  ⟨⟨rfl, rfl⟩,
    reminder_failed_exactly_after_third_attempt envUnresolved 1 2 3 recordatorioBase
      rfl rfl (fun _ _ => rfl)⟩

theorem collect_never_resolves {α : Type} (resolver : Destinatario → Except String (Option α))
    (hres : ∀ d : Destinatario,
      (∃ e, resolver d = Except.error e) ∨ resolver d = Except.ok none) :
    ∀ ds : List Destinatario,
      collectDestinatarios resolver ds = Except.ok [] ∨
        ∃ e, collectDestinatarios resolver ds = Except.error e := by
  intro ds
  induction ds with
  | nil => exact Or.inl rfl
  | cons d ds ih =>
    unfold collectDestinatarios
    rcases hres d with ⟨e, he⟩ | he
    · rw [he]
      exact Or.inr ⟨e, rfl⟩
    · rw [he]
      exact ih

theorem resolverTelefono_never_resolves (d : Destinatario) :
    (∃ e, resolverTelefono d = Except.error e) ∨ resolverTelefono d = Except.ok none := by
  unfold resolverTelefono
  by_cases h1 : d.tipo = "USUARIO"
  · rw [if_pos h1]
    exact Or.inl ⟨_, rfl⟩
  · rw [if_neg h1]
    by_cases h2 : d.tipo = "CLIENTE"
    · rw [if_pos h2]
      exact Or.inl ⟨_, rfl⟩
    · rw [if_neg h2]
      exact Or.inr rfl

theorem resolverEmail_never_resolves (d : Destinatario) :
    (∃ e, resolverEmail d = Except.error e) ∨ resolverEmail d = Except.ok none := by
  unfold resolverEmail
  by_cases h1 : d.tipo = "USUARIO"
  · rw [if_pos h1]
    exact Or.inl ⟨_, rfl⟩
  · rw [if_neg h1]
    by_cases h2 : d.tipo = "CLIENTE"
    · rw [if_pos h2]
      exact Or.inl ⟨_, rfl⟩
    · rw [if_neg h2]
      exact Or.inr rfl

theorem enviarPorWhatsApp_false (env : SchedulerEnv) (now : Int) (r : Recordatorio)
    (mensaje : Mensaje) : enviarPorWhatsApp env now r mensaje = false := by
  unfold enviarPorWhatsApp
  rcases collect_never_resolves resolverTelefono resolverTelefono_never_resolves
      r.destinatarios with h | ⟨e, h⟩
  · rw [h]
  · rw [h]

theorem enviarPorEmail_false (env : SchedulerEnv) (r : Recordatorio) (mensaje : Mensaje) :
    enviarPorEmail env r mensaje = false := by
  unfold enviarPorEmail
  rcases collect_never_resolves resolverEmail resolverEmail_never_resolves
      r.destinatarios with h | ⟨e, h⟩
  · rw [h]
  · rw [h]

theorem enviarPorSMS_false (env : SchedulerEnv) (r : Recordatorio) (mensaje : Mensaje) :
    enviarPorSMS env r mensaje = false := by
  unfold enviarPorSMS
  rcases collect_never_resolves resolverTelefono resolverTelefono_never_resolves
      r.destinatarios with h | ⟨e, h⟩
  · rw [h]
  · rw [h]

theorem dispatchRecordatorio_false (env : SchedulerEnv) (now : Int) (m : Mensaje)
    (r : Recordatorio) : dispatchRecordatorio env now m r = false := by
  unfold dispatchRecordatorio
  split
  · exact enviarPorEmail_false env r m
  · exact enviarPorSMS_false env r m
  · exact enviarPorWhatsApp_false env now r m
  · rfl

/-- The transport environment of the claim's scenario: the WhatsApp send
would fail for A's number 111 and succeed for B's number 222 - but no send
is ever reached, because recipient resolution throws first. -/
def envAB : SchedulerEnv :=
  { sendEmail := fun _ => true,
    sendSMS := fun _ => true,
    sendWhatsAppMessage := fun o => o.toNumber == "222",
    formatDateTime := fun _ => "01/01/2025",
    formatDate := fun _ => "01/01/2025" }

/-- A pending WhatsApp reminder addressed to recipients A (user 1, whose
number the `envAB` transport would reject) and B (user 2, whose number it
would accept). -/
def recordatorioAB : Recordatorio :=
  { rid := 1, titulo := "Cita", descripcion := none, evento := none, cliente := none,
    fechaProgramada := 0, tipo := "WHATSAPP",
    destinatarios := [{ tipo := "USUARIO", id := 1, notificado := false },
                      { tipo := "USUARIO", id := 2, notificado := false }],
    estado := "PENDIENTE", plantillaPersonalizada := none, intentos := 0,
    ultimoIntento := none, mensajeError := none, prioridad := "MEDIA" }

/-- C3 counterexample: at the claim's scenario (recipients A and B, the
WhatsApp transport failing for A's number and succeeding for B's),
processing leaves the reminder PENDING on its first attempt with neither
recipient marked notified and no error recorded - not SENT with B notified
and A's failure in lastError, as the claim requires: the recipient lookup
throws on the unbound mongoose identifier and the dispatcher's catch
converts every dispatch into failure before any send. -/
theorem recipient_scenario_leaves_reminder_pending :
    (procesarRecordatorio envAB 50 recordatorioAB).1.estado = "PENDIENTE" ∧
      (procesarRecordatorio envAB 50 recordatorioAB).1.destinatarios.map
          (fun d => d.notificado) = [false, false] ∧
      (procesarRecordatorio envAB 50 recordatorioAB).1.mensajeError = none ∧
      (procesarRecordatorio envAB 50 recordatorioAB).1.intentos = 1 := by
  refine ⟨by decide, by decide, by decide, by decide⟩

/-- C3 (amended): dispatch can never succeed - the recipient lookup reads
the unbound `mongoose` identifier and throws, and each dispatcher's catch
returns false - so processing any pending reminder on its first attempt (in
particular one with recipients A and B whose transports would respectively
fail and succeed) leaves it PENDING with the attempt counter at one, no
recipient marked notified, and the error field untouched; such a reminder
later becomes FAILED at the third attempt, never SENT. -/
theorem dispatch_never_succeeds_reminder_stays_pending
    (env : SchedulerEnv) (now : Int) (m : Mensaje) (r : Recordatorio)
    (hestado : r.estado = "PENDIENTE") (hintentos : r.intentos = 0) :
    dispatchRecordatorio env now m r = false ∧
      (procesarRecordatorio env now r).2 = false ∧
      (procesarRecordatorio env now r).1.estado = "PENDIENTE" ∧
      (procesarRecordatorio env now r).1.intentos = 1 ∧
      (procesarRecordatorio env now r).1.destinatarios = r.destinatarios ∧
      (procesarRecordatorio env now r).1.mensajeError = r.mensajeError := by
  have hstep := procesar_fail_step env now r
    (fun m2 => dispatchRecordatorio_false env now m2 r) (by omega)
  refine ⟨dispatchRecordatorio_false env now m r, ?_, ?_, ?_, ?_, ?_⟩
  · rw [hstep]
  · rw [hstep]
    exact hestado
  · rw [hstep]
    simp [hintentos]
  · rw [hstep]
  · rw [hstep]

/-- Witness for the C3 theorem at the A and B scenario input. -/
theorem dispatch_never_succeeds_reminder_stays_pending_witness :
    (recordatorioAB.estado = "PENDIENTE" ∧ recordatorioAB.intentos = 0) ∧
      dispatchRecordatorio envAB 50 (prepararMensaje envAB 50 recordatorioAB)
          recordatorioAB = false ∧
        (procesarRecordatorio envAB 50 recordatorioAB).2 = false ∧
        (procesarRecordatorio envAB 50 recordatorioAB).1.estado = "PENDIENTE" ∧
        (procesarRecordatorio envAB 50 recordatorioAB).1.intentos = 1 ∧
        (procesarRecordatorio envAB 50 recordatorioAB).1.destinatarios =
          recordatorioAB.destinatarios ∧
        (procesarRecordatorio envAB 50 recordatorioAB).1.mensajeError =
          recordatorioAB.mensajeError :=
  ⟨⟨rfl, rfl⟩,
    dispatch_never_succeeds_reminder_stays_pending envAB 50
      (prepararMensaje envAB 50 recordatorioAB) recordatorioAB rfl rfl⟩

/-- A reminder with only the scheduler-relevant fields varied. -/
def mkRecordatorio (i : Nat) (pr : String) (fecha : Int) (estado : String) : Recordatorio :=
  { rid := i, titulo := "r", descripcion := none, evento := none, cliente := none,
    fechaProgramada := fecha, tipo := "EMAIL", destinatarios := [],
    estado := estado, plantillaPersonalizada := none, intentos := 0,
    ultimoIntento := none, mensajeError := none, prioridad := pr }

/-- C5 counterexample: two due pending reminders with equal scheduled
instants, one HIGH (ALTA, id 1) and one MEDIUM (MEDIA, id 2); the claim's
order URGENT before HIGH before MEDIUM before LOW demands [1, 2], but the
scheduler sorts the priority strings byte-wise descending, so it processes
[2, 1]. -/
theorem alta_processed_after_media :
    (procesarRecordatoriosPendientes envUnresolved 10
        [mkRecordatorio 1 "ALTA" 0 "PENDIENTE", mkRecordatorio 2 "MEDIA" 0 "PENDIENTE"]).1 =
        [2, 1] ∧
      ([2, 1] : List Nat) ≠ [1, 2] := by
  refine ⟨by decide, by decide⟩

/-- C5 (amended): each tick processes exactly the reminders that are
pending and already due, sequentially in the order given by the sort key
(priority compared byte-wise as a string, descending - hence URGENTE, then
MEDIA, then BAJA, then ALTA - with ties broken by scheduled instant
ascending); the spec's own instance [MEDIUM, URGENT, LOW] is indeed
processed as [URGENT, MEDIUM, LOW]. -/
theorem scheduler_selection_and_order :
    (∀ (env : SchedulerEnv) (now : Int) (store : List Recordatorio),
        (procesarRecordatoriosPendientes env now store).1 =
          (recordatoriosPendientes now store).map (fun r => r.rid)) ∧
      (∀ (now : Int) (store : List Recordatorio) (r : Recordatorio),
          r ∈ recordatoriosPendientes now store ↔
            r ∈ store ∧ r.fechaProgramada ≤ now ∧ r.estado = "PENDIENTE") ∧
      (∀ (now : Int) (store : List Recordatorio),
          (recordatoriosPendientes now store).Sorted recordatorioLE) ∧
      (recordatoriosPendientes 10
          [mkRecordatorio 2 "MEDIA" 0 "PENDIENTE", mkRecordatorio 1 "URGENTE" 0 "PENDIENTE",
            mkRecordatorio 3 "BAJA" 0 "PENDIENTE"]).map (fun r => r.rid) = [1, 2, 3] := by
  refine ⟨fun env now store => rfl, fun now store r => ?_, fun now store =>
    List.sorted_insertionSort recordatorioLE _, by decide⟩
  unfold recordatoriosPendientes
  rw [(List.perm_insertionSort recordatorioLE _).mem_iff, List.mem_filter]
  simp [and_assoc]

/-! ## Template model and controller (src/models/whatsapp/Template.js,
src/controllers/whatsapp/templateController.js) -/

/-- Declared `category` enum of the Template schema. -/
def templateCategoryEnum : List String :=
  ["MARKETING", "UTILITY", "AUTHENTICATION", "ACCOUNT_UPDATE", "PAYMENT_UPDATE"]

/-- Declared `status` enum of the Template schema. -/
def templateStatusEnum : List String := ["PENDING", "APPROVED", "REJECTED"]

/-- One document of the `WhatsAppTemplate` collection; `components` is the
structured content payload, opaque here. -/
structure TemplateRec where
  tid : Nat
  name : String
  language : String
  category : String
  components : String
  status : String
  localId : Option Nat
  deriving Repr, DecidableEq

/-- The request body of `updateTemplate`: fields absent from the body are
`none` and are not written by the `$set`.  A present `components` value is
an array, hence always truthy in the controller's checks; a present
`category` is a string, falsy when empty. -/
structure TemplateUpdate where
  name : Option String := none
  category : Option String := none
  components : Option String := none
  deriving Repr, DecidableEq

/-- The HTTP outcome of a controller call (status code, success flag,
message). -/
structure ApiResponse where
  statusCode : Nat
  success : Bool
  message : String
  deriving Repr, DecidableEq

/-- The truthiness of the `updateData.components || updateData.category`
check that forces the status back to pending. -/
def contentEdited (u : TemplateUpdate) : Bool :=
  u.components.isSome ||
    (match u.category with
      | some c => c != ""
      | none => false)

/-- The validators `findByIdAndUpdate` runs here (`runValidators: true`):
each updated path is validated - a set name must be non-empty, a set
category must belong to the schema enum. -/
def validTemplateSet (u : TemplateUpdate) : Bool :=
  (match u.name with
    | some n => n != ""
    | none => true) &&
  (match u.category with
    | some c => templateCategoryEnum.contains c
    | none => true)

/-- Embedding of `templateController.updateTemplate`: not-found, the
admin-local guard, the rename guard on approved templates, the status reset
on content or category edits, then the validated `$set`. -/
def updateTemplate (userRole : String) (userLocal : Option Nat) (templateId : Nat)
    (updateData : TemplateUpdate) (store : List TemplateRec) :
    ApiResponse × List TemplateRec :=
  match store.find? (fun t => t.tid == templateId) with
  | none =>
      ({ statusCode := 404, success := false, message := "Plantilla no encontrada" }, store)
  | some template =>
    if userRole == "admin" && userLocal.isSome && template.localId.isSome &&
        userLocal != template.localId then
      ({ statusCode := 403, success := false,
         message := "No tiene permisos para modificar esta plantilla" }, store)
    else if template.status == "APPROVED" &&
        (match updateData.name with
          | some n => n != "" && n != template.name
          | none => false) then
      ({ statusCode := 400, success := false,
         message := "No se puede cambiar el nombre de una plantilla aprobada" }, store)
    else if validTemplateSet updateData then
      ({ statusCode := 200, success := true,
         message := "Plantilla actualizada exitosamente" },
        updateFirst (fun t => t.tid == templateId)
          (fun t =>
            { t with
                name := updateData.name.getD t.name,
                category := updateData.category.getD t.category,
                components := updateData.components.getD t.components,
                status := if contentEdited updateData then "PENDING" else t.status })
          store)
    else
      ({ statusCode := 500, success := false,
         message := "Error al actualizar la plantilla" }, store)

/-- C7: rename guard and status reset - on a template whose status is
APPROVED (and past the permission gate), an update that changes the name is
rejected with the store unchanged, while an update of the components, or of
the category to a valid category, succeeds and resets the status to
PENDING. -/
theorem template_rename_guard_and_status_reset
    (store : List TemplateRec) (tid : Nat) (t : TemplateRec)
    (hfind : store.find? (fun x => x.tid == tid) = some t)
    (happroved : t.status = "APPROVED")
    (n c comps : String) (hn1 : n ≠ "") (hn2 : n ≠ t.name)
    (hc : templateCategoryEnum.contains c = true) :
    (updateTemplate "superAdmin" none tid { name := some n } store =
        ({ statusCode := 400, success := false,
           message := "No se puede cambiar el nombre de una plantilla aprobada" }, store)) ∧
      ((updateTemplate "superAdmin" none tid { components := some comps } store).1.statusCode =
          200 ∧
        (updateTemplate "superAdmin" none tid { components := some comps } store).2.find?
            (fun x => x.tid == tid) =
          some { t with components := comps, status := "PENDING" }) ∧
      ((updateTemplate "superAdmin" none tid { category := some c } store).1.statusCode = 200 ∧
        (updateTemplate "superAdmin" none tid { category := some c } store).2.find?
            (fun x => x.tid == tid) =
          some { t with category := c, status := "PENDING" }) := by
  have hcne : c ≠ "" := by
    intro h
    rw [h] at hc
    exact absurd hc (by decide)
  have hpt := List.find?_some hfind
  refine ⟨?_, ⟨?_, ?_⟩, ⟨?_, ?_⟩⟩
  · unfold updateTemplate
    rw [hfind]
    simp only [Option.isSome_none, Bool.and_false, Bool.false_and, Bool.false_eq_true,
      if_false]
    rw [if_pos (by simp [happroved, hn1, hn2])]
  · unfold updateTemplate
    rw [hfind]
    simp [validTemplateSet]
  · unfold updateTemplate
    rw [hfind]
    simp only [Option.isSome_none, Bool.and_false, Bool.false_and, Bool.false_eq_true,
      if_false]
    rw [if_pos (by simp [validTemplateSet])]
    simp only
    have := find?_updateFirst_of_found (fun x => x.tid == tid)
      (fun t =>
        { t with
            name := (none : Option String).getD t.name,
            category := (none : Option String).getD t.category,
            components := (some comps).getD t.components,
            status := if contentEdited { components := some comps } = true then "PENDING"
              else t.status })
      store t hfind (by simpa using hpt)
    rw [this]
    simp [contentEdited]
  · have hc2 : c ∈ templateCategoryEnum := by simpa using hc
    unfold updateTemplate
    rw [hfind]
    simp [validTemplateSet, hc2]
  · have hc2 : c ∈ templateCategoryEnum := by simpa using hc
    unfold updateTemplate
    rw [hfind]
    simp only [Option.isSome_none, Bool.and_false, Bool.false_and, Bool.false_eq_true,
      if_false]
    rw [if_pos (by simp [validTemplateSet, hc2])]
    simp only
    have := find?_updateFirst_of_found (fun x => x.tid == tid)
      (fun t =>
        { t with
            name := (none : Option String).getD t.name,
            category := (some c).getD t.category,
            components := (none : Option String).getD t.components,
            status := if contentEdited { category := some c } = true then "PENDING"
              else t.status })
      store t hfind (by simpa using hpt)
    rw [this]
    simp [contentEdited, hcne]

def approvedTemplate : TemplateRec :=
  { tid := 1, name := "promo", language := "es", category := "MARKETING",
    components := "body-v1", status := "APPROVED", localId := none }

/-- Witness for the C7 theorem at a concrete approved template. -/
theorem template_rename_guard_and_status_reset_witness :
    ([approvedTemplate].find? (fun x => x.tid == 1) = some approvedTemplate ∧
        approvedTemplate.status = "APPROVED" ∧ ("promo2" : String) ≠ "" ∧
        ("promo2" : String) ≠ approvedTemplate.name ∧
        templateCategoryEnum.contains "UTILITY" = true) ∧
      (updateTemplate "superAdmin" none 1 { name := some "promo2" } [approvedTemplate] =
          ({ statusCode := 400, success := false,
             message := "No se puede cambiar el nombre de una plantilla aprobada" },
            [approvedTemplate])) ∧
        ((updateTemplate "superAdmin" none 1 { components := some "body-v2" }
              [approvedTemplate]).1.statusCode = 200 ∧
          (updateTemplate "superAdmin" none 1 { components := some "body-v2" }
              [approvedTemplate]).2.find? (fun x => x.tid == 1) =
            some { approvedTemplate with components := "body-v2", status := "PENDING" }) ∧
        ((updateTemplate "superAdmin" none 1 { category := some "UTILITY" }
              [approvedTemplate]).1.statusCode = 200 ∧
          (updateTemplate "superAdmin" none 1 { category := some "UTILITY" }
              [approvedTemplate]).2.find? (fun x => x.tid == 1) =
            some { approvedTemplate with category := "UTILITY", status := "PENDING" }) :=
  ⟨⟨by decide, by decide, by decide, by decide, by decide⟩,
    template_rename_guard_and_status_reset [approvedTemplate] 1 approvedTemplate
      (by decide) (by decide) "promo2" "UTILITY" "body-v2" (by decide) (by decide) (by decide)⟩

/-! ## Bulk send endpoints (src/controllers/whatsapp/messageController.js) -/

/-- One element of the per-recipient `results` array of a bulk send. -/
structure BulkItem where
  toNumber : String
  success : Bool
  messageId : Option String
  error : Option String
  deriving Repr, DecidableEq

/-- The HTTP outcome of a bulk endpoint (the human-readable message with the
interpolated counts is kept as a constant prefix). -/
structure BulkResponse where
  statusCode : Nat
  success : Bool
  message : String
  results : List BulkItem
  deriving Repr, DecidableEq

/-- One loop iteration of a bulk send: run the underlying send, append its
per-recipient outcome, count the gateway call the send just made. -/
def bulkStep (send : Nat → String → WAStore → SendResult × WAStore)
    (acc : List BulkItem × WAStore × Nat) (toNumber : String) :
    List BulkItem × WAStore × Nat :=
  let r := send acc.2.2 toNumber acc.2.1
  match r.1 with
  | .ok mid =>
      (acc.1 ++ [{ toNumber := toNumber, success := true, messageId := some mid, error := none }],
        r.2, acc.2.2 + 1)
  | .gatewayFailure g =>
      (acc.1 ++ [{ toNumber := toNumber, success := false, messageId := none, error := g.error }],
        r.2, acc.2.2 + 1)
  | .storeFailure e =>
      (acc.1 ++ [{ toNumber := toNumber, success := false, messageId := none, error := some e }],
        r.2, acc.2.2 + 1)

/-- Embedding of `messageController.sendBulkTextMessage`: reject a missing
or empty recipient array or empty text, reject more than 100 recipients,
otherwise send sequentially (each iteration makes exactly one gateway call,
counted in the third component). -/
def sendBulkTextMessage (gatewaySendText : String → String → GatewayResult)
    (freshId : Nat → String) (now : Int) (businessNumber : String)
    (numbers : List String) (text : String)
    (contactName relatedUser localId : Option String) (st : WAStore) :
    BulkResponse × WAStore × Nat :=
  if numbers.isEmpty || text == "" then
    ({ statusCode := 400, success := false,
       message := "Se requiere un array de números de teléfono y el texto del mensaje",
       results := [] }, st, 0)
  else if numbers.length > 100 then
    ({ statusCode := 400, success := false,
       message := "El máximo número de destinatarios por solicitud es 100",
       results := [] }, st, 0)
  else
    let final := numbers.foldl
      (bulkStep (fun k toNumber acc =>
        sendText gatewaySendText now businessNumber (freshId k) toNumber text
          contactName relatedUser localId acc))
      ([], st, 0)
    ({ statusCode := 200, success := true,
       message := "Proceso de envío masivo completado",
       results := final.1 }, final.2.1, final.2.2)

/-- Embedding of `messageController.sendBulkTemplateMessage` (same shape;
the language defaults to es and the parameters to the empty object at the
call into the service). -/
def sendBulkTemplateMessage
    (gatewaySendTemplate : String → String → String → String → GatewayResult)
    (freshId : Nat → String) (now : Int) (businessNumber : String)
    (numbers : List String) (templateName language parameters : String)
    (contactName relatedUser localId : Option String) (st : WAStore) :
    BulkResponse × WAStore × Nat :=
  if numbers.isEmpty || templateName == "" then
    ({ statusCode := 400, success := false,
       message := "Se requiere un array de números de teléfono y el nombre de la plantilla",
       results := [] }, st, 0)
  else if numbers.length > 100 then
    ({ statusCode := 400, success := false,
       message := "El máximo número de destinatarios por solicitud es 100",
       results := [] }, st, 0)
  else
    let final := numbers.foldl
      (bulkStep (fun k toNumber acc =>
        sendTemplate gatewaySendTemplate now businessNumber (freshId k) toNumber
          templateName language parameters contactName relatedUser localId acc))
      ([], st, 0)
    ({ statusCode := 200, success := true,
       message := "Proceso de envío masivo de plantilla completado",
       results := final.1 }, final.2.1, final.2.2)

/-- C9: bulk cap - any bulk request (text or template) with more than 100
recipients is rejected with a 400 validation response before any send: no
per-recipient result, zero gateway calls, and the store exactly as it was. -/
theorem bulk_cap_rejected_before_any_send
    (gwText : String → String → GatewayResult)
    (gwTemplate : String → String → String → String → GatewayResult)
    (freshId : Nat → String) (now : Int) (bn : String)
    (numbers : List String) (text tname lang params : String)
    (cn ru lid : Option String) (st : WAStore)
    (hcap : numbers.length > 100) :
    ((sendBulkTextMessage gwText freshId now bn numbers text cn ru lid st).1.statusCode = 400 ∧
        (sendBulkTextMessage gwText freshId now bn numbers text cn ru lid st).1.success =
          false ∧
        (sendBulkTextMessage gwText freshId now bn numbers text cn ru lid st).1.results = [] ∧
        (sendBulkTextMessage gwText freshId now bn numbers text cn ru lid st).2.1 = st ∧
        (sendBulkTextMessage gwText freshId now bn numbers text cn ru lid st).2.2 = 0) ∧
      ((sendBulkTemplateMessage gwTemplate freshId now bn numbers tname lang params cn ru lid
            st).1.statusCode = 400 ∧
        (sendBulkTemplateMessage gwTemplate freshId now bn numbers tname lang params cn ru lid
            st).1.success = false ∧
        (sendBulkTemplateMessage gwTemplate freshId now bn numbers tname lang params cn ru lid
            st).1.results = [] ∧
        (sendBulkTemplateMessage gwTemplate freshId now bn numbers tname lang params cn ru lid
            st).2.1 = st ∧
        (sendBulkTemplateMessage gwTemplate freshId now bn numbers tname lang params cn ru lid
            st).2.2 = 0) := by
  constructor
  · unfold sendBulkTextMessage
    by_cases h1 : (numbers.isEmpty || text == "") = true
    · rw [if_pos h1]
      exact ⟨rfl, rfl, rfl, rfl, rfl⟩
    · rw [if_neg h1, if_pos hcap]
      exact ⟨rfl, rfl, rfl, rfl, rfl⟩
  · unfold sendBulkTemplateMessage
    by_cases h1 : (numbers.isEmpty || tname == "") = true
    · rw [if_pos h1]
      exact ⟨rfl, rfl, rfl, rfl, rfl⟩
    · rw [if_neg h1, if_pos hcap]
      exact ⟨rfl, rfl, rfl, rfl, rfl⟩

/-- Witness for the C9 theorem with 101 recipients. -/
theorem bulk_cap_rejected_before_any_send_witness :
    (List.replicate 101 "5491111111111").length > 100 ∧
      ((sendBulkTextMessage (fun _ _ => failingGatewayResult) (fun _ => "id") 5 "549"
            (List.replicate 101 "5491111111111") "hola" none none none
            emptyWAStore).1.statusCode = 400 ∧
          (sendBulkTextMessage (fun _ _ => failingGatewayResult) (fun _ => "id") 5 "549"
            (List.replicate 101 "5491111111111") "hola" none none none
            emptyWAStore).1.success = false ∧
          (sendBulkTextMessage (fun _ _ => failingGatewayResult) (fun _ => "id") 5 "549"
            (List.replicate 101 "5491111111111") "hola" none none none
            emptyWAStore).1.results = [] ∧
          (sendBulkTextMessage (fun _ _ => failingGatewayResult) (fun _ => "id") 5 "549"
            (List.replicate 101 "5491111111111") "hola" none none none
            emptyWAStore).2.1 = emptyWAStore ∧
          (sendBulkTextMessage (fun _ _ => failingGatewayResult) (fun _ => "id") 5 "549"
            (List.replicate 101 "5491111111111") "hola" none none none
            emptyWAStore).2.2 = 0) ∧
        ((sendBulkTemplateMessage (fun _ _ _ _ => failingGatewayResult) (fun _ => "id") 5 "549"
            (List.replicate 101 "5491111111111") "tpl" "es" "" none none none
            emptyWAStore).1.statusCode = 400 ∧
          (sendBulkTemplateMessage (fun _ _ _ _ => failingGatewayResult) (fun _ => "id") 5 "549"
            (List.replicate 101 "5491111111111") "tpl" "es" "" none none none
            emptyWAStore).1.success = false ∧
          (sendBulkTemplateMessage (fun _ _ _ _ => failingGatewayResult) (fun _ => "id") 5 "549"
            (List.replicate 101 "5491111111111") "tpl" "es" "" none none none
            emptyWAStore).1.results = [] ∧
          (sendBulkTemplateMessage (fun _ _ _ _ => failingGatewayResult) (fun _ => "id") 5 "549"
            (List.replicate 101 "5491111111111") "tpl" "es" "" none none none
            emptyWAStore).2.1 = emptyWAStore ∧
          (sendBulkTemplateMessage (fun _ _ _ _ => failingGatewayResult) (fun _ => "id") 5 "549"
            (List.replicate 101 "5491111111111") "tpl" "es" "" none none none
            emptyWAStore).2.2 = 0) :=
  ⟨by decide,
    bulk_cap_rejected_before_any_send (fun _ _ => failingGatewayResult)
      (fun _ _ _ _ => failingGatewayResult) (fun _ => "id") 5 "549"
      (List.replicate 101 "5491111111111") "hola" "tpl" "es" "" none none none
      emptyWAStore (by decide)⟩

end Evolution
